import Mathlib

/-!
Verification development for the gemini-desktop Tauri shell
(`src-tauri/src`).  The Rust source is shallowly embedded: the pure
geometry arithmetic of `commands/webview.rs` becomes Lean functions on
`ℚ` and `ℕ`, and the stateful Tauri commands become explicit
state-passing functions over small records describing the host
environment (which windows/webviews exist, and what the fallible host
calls return).

Rust `f64` values that appear here (the titlebar height `32.0` and the
display scale factor) are modelled as rationals with exact arithmetic;
every concrete input used below is exactly representable in `f64` and
the products involved are exact in `f64`, so the model agrees with the
machine arithmetic at those points.
-/

/-- Physical size of a window in physical pixels, mirroring Tauri's
`PhysicalSize` with `u32` fields (host-supplied values fit in `u32`). -/
structure PhysicalSize where
  width : ℕ
  height : ℕ
deriving Repr, DecidableEq

/-- Bounds of the embedded webview: a physical position (`i32` fields in
Tauri's `PhysicalPosition`, modelled as `ℤ`) and a physical size (`u32`
fields, modelled as `ℕ`). -/
structure Bounds where
  x : ℤ
  y : ℤ
  width : ℕ
  height : ℕ
deriving Repr, DecidableEq

/-- Height of the custom titlebar in logical pixels
(`TITLEBAR_HEIGHT: f64 = 32.0` in `commands/webview.rs` and
`constants.rs`). -/
def TITLEBAR_HEIGHT : ℚ := 32

/-- URL for the Gemini AI service (`GEMINI_URL` in `constants.rs`). -/
def GEMINI_URL : String := "https://gemini.google.com"

/-- Rust's `as u32` cast on an `f64` value, on the rational model: the
cast truncates toward zero and saturates, so negative values map to `0`
and values at or above `2^32` map to `u32::MAX`. -/
def f64AsU32 (q : ℚ) : ℕ :=
  min (Int.toNat ⌊q⌋) (2 ^ 32 - 1)

/-- Rust's `as i32` cast on a `u32` value: values below `2^31` are kept,
larger ones wrap around by `2^32`. -/
def u32AsI32 (n : ℕ) : ℤ :=
  if n < 2 ^ 31 then (n : ℤ) else (n : ℤ) - 2 ^ 32

/-- The physical titlebar height computed by `create_gemini_webview`:
`let titlebar_height_phys = (TITLEBAR_HEIGHT * scale_factor) as u32;`
(`commands/webview.rs:42`). -/
def titlebar_height_phys (scale_factor : ℚ) : ℕ :=
  f64AsU32 (TITLEBAR_HEIGHT * scale_factor)

/-- The bounds `create_gemini_webview` passes to `add_child`
(`commands/webview.rs:44-66`): position `(0, titlebar_height_phys as
i32)`, width the parent's width unchanged, height the parent's height
minus the physical titlebar height, clamped at `0`. -/
def computeGeminiBounds (size : PhysicalSize) (scale_factor : ℚ) : Bounds :=
  let tp := titlebar_height_phys scale_factor
  { x := 0
    y := u32AsI32 tp
    width := size.width
    height := if size.height > tp then size.height - tp else 0 }

/-- Command error type of `errors.rs`.  Each variant carries the string
that its `thiserror` format interpolates: `WindowNotFound` holds the
message built at the call site, the other variants hold the display
message of the wrapped underlying error. -/
inductive CommandError where
  | WindowNotFound (msg : String)
  | TauriError (msg : String)
  | SerializationError (msg : String)
  | Internal (msg : String)
deriving Repr, DecidableEq

/-- Display message of a `CommandError`, following the `#[error("...")]`
format attributes in `errors.rs` (this is what `self.to_string()`
produces). -/
def CommandError.display : CommandError → String
  | .WindowNotFound m => "Failed to acquire window: " ++ m
  | .TauriError m => "Tauri error: " ++ m
  | .SerializationError m => "Serialization error: " ++ m
  | .Internal m => "Internal error: " ++ m

/-- Serde data-model values a serializer can emit; only the shapes
relevant here (a plain string, an integer, a map of named fields). -/
inductive SerdeValue where
  | str (s : String)
  | num (n : ℤ)
  | obj (fields : List (String × SerdeValue))
deriving Repr

/-- Serialization of `CommandError` from `errors.rs`:
`serializer.serialize_str(self.to_string().as_ref())`. -/
def serializeCommandError (e : CommandError) : SerdeValue :=
  .str e.display

/-- Which windows and webviews currently exist in the running app,
keyed by their reserved labels `"main"`, `"gemini-webview"` and
`"options"`. -/
structure AppState where
  mainWindowExists : Bool
  geminiWebviewExists : Bool
  optionsWindowExists : Bool
deriving Repr, DecidableEq

/-- Outcomes of the fallible host calls `create_gemini_webview` makes on
the main window, in source order: `scale_factor()`, `inner_size()`, and
`add_child(...)`. -/
structure WebviewHost where
  scale_factor : Except String ℚ
  inner_size : Except String PhysicalSize
  add_child : Except String Unit

/-- Record of a child-webview attachment request issued to the host. -/
structure CreatedView where
  label : String
  url : String
  bounds : Bounds
deriving Repr, DecidableEq

/-- Shallow embedding of `create_gemini_webview` (`commands/webview.rs`):
require the `"main"` window, return `Ok` unchanged if the
`"gemini-webview"` webview already exists, otherwise query scale factor
and inner size, compute the bounds, and attach the child webview.  The
result is the command's return value, the successor app state, and the
attachment request issued (if any). -/
def create_gemini_webview (app : AppState) (host : WebviewHost) :
    Except CommandError Unit × AppState × Option CreatedView :=
  if app.mainWindowExists = false then
    (.error (.WindowNotFound "Main window not found"), app, none)
  else if app.geminiWebviewExists then
    (.ok (), app, none)
  else
    match host.scale_factor with
    | .error e => (.error (.TauriError e), app, none)
    | .ok sf =>
      match host.inner_size with
      | .error e => (.error (.TauriError e), app, none)
      | .ok size =>
        match host.add_child with
        | .error e => (.error (.TauriError e), app, none)
        | .ok _ =>
          (.ok (), { app with geminiWebviewExists := true },
           some { label := "gemini-webview", url := GEMINI_URL,
                  bounds := computeGeminiBounds size sf })

/-- Modelled from the spec: the body of `crate::utils::calculate_webview_bounds`
(module `utils` is declared in `lib.rs` but its source file is not part
of the provided tree).  Spec section 4.1: `titlebarPhysical =
round(titlebarHeightLogical * scaleFactor)`; position `(0,
titlebarPhysical)`; width unchanged; height clamped at `0`, with the
position components non-negative after clamping. -/
def calculate_webview_bounds (width height : ℕ) (scale_factor : ℚ)
    (titlebar_height : ℚ) : Bounds :=
  let tp := (round (titlebar_height * scale_factor)).toNat
  { x := 0
    y := (tp : ℤ)
    width := width
    height := if height > tp then height - tp else 0 }

/-- Environment the resize listener of `lib.rs` observes: whether the
`"gemini-webview"` webview exists, and the outcomes of
`main_window_clone.scale_factor()` and `webview.set_bounds(bounds)`. -/
structure ResizeHost where
  geminiWebviewExists : Bool
  scale_factor : Except String ℚ
  set_bounds : Except String Unit

/-- Shallow embedding of the resize-event closure registered in
`lib.rs` (`run`, resize listener): on a `Resized(size)` event, if the
`"gemini-webview"` webview exists, read the scale factor with
`.unwrap_or(1.0)`, compute bounds via `calculate_webview_bounds`, and
request `set_bounds`, discarding its result (`let _ = ...`).  The
closure itself returns no error; the `Except` layer records that no
error can escape it, and the `Option Bounds` records the bounds request
it issued (if any). -/
def on_main_window_resized (host : ResizeHost) (size : PhysicalSize) :
    Except CommandError Unit × Option Bounds :=
  if host.geminiWebviewExists then
    let sf := match host.scale_factor with
      | .ok s => s
      | .error _ => 1
    let bounds := calculate_webview_bounds size.width size.height sf TITLEBAR_HEIGHT
    (.ok (), some bounds)
  else
    (.ok (), none)

/-- Outcomes of the fallible host calls `create_options_window` makes,
in source order: `unminimize()` and `set_focus()` on an existing window,
or `build()` and `set_focus()` for a new one. -/
structure OptionsHost where
  unminimize : Except String Unit
  focus_existing : Except String Unit
  build : Except String Unit
  focus_new : Except String Unit

/-- Shallow embedding of `create_options_window` (`windows/options.rs`):
if the `"options"` window exists, try to unminimize it (a failure is
only logged as a warning) and then focus it (a failure is returned as
`TauriError`); otherwise build a new window and focus it.  The result is
the command's return value, the successor app state, the number of
windows created, and the warnings logged. -/
def create_options_window (app : AppState) (host : OptionsHost) :
    Except CommandError Unit × AppState × ℕ × List String :=
  if app.optionsWindowExists then
    let warns := match host.unminimize with
      | .error e => ["Failed to unminimize options window: " ++ e]
      | .ok _ => []
    match host.focus_existing with
    | .error e => (.error (.TauriError e), app, 0, warns)
    | .ok _ => (.ok (), app, 0, warns)
  else
    match host.build with
    | .error e => (.error (.TauriError e), app, 0, [])
    | .ok _ =>
      let app1 := { app with optionsWindowExists := true }
      match host.focus_new with
      | .error e => (.error (.TauriError e), app1, 1, [])
      | .ok _ => (.ok (), app1, 1, [])

/-! Helper lemmas about the physical titlebar height. -/

/-- Evaluation of the physical titlebar height at scale factor `1`. -/
lemma titlebar_height_phys_one : titlebar_height_phys 1 = 32 := by
  simp [titlebar_height_phys, f64AsU32, TITLEBAR_HEIGHT]

/-- The floor of the scaled titlebar height is non-negative for a
non-negative scale factor. -/
lemma floor_titlebar_nonneg (sf : ℚ) (h0 : 0 ≤ sf) :
    0 ≤ ⌊TITLEBAR_HEIGHT * sf⌋ := by
  apply Int.floor_nonneg.mpr
  simp only [TITLEBAR_HEIGHT]
  positivity

/-- The floor of the scaled titlebar height stays below `2^31` when the
exact product does. -/
lemma floor_titlebar_lt (sf : ℚ) (h1 : 32 * sf < 2 ^ 31) :
    ⌊TITLEBAR_HEIGHT * sf⌋ < 2 ^ 31 := by
  have hle : ((⌊TITLEBAR_HEIGHT * sf⌋ : ℚ)) ≤ TITLEBAR_HEIGHT * sf := Int.floor_le _
  have hlt : ((⌊TITLEBAR_HEIGHT * sf⌋ : ℚ)) < 2 ^ 31 := by
    refine lt_of_le_of_lt hle ?_
    simpa [TITLEBAR_HEIGHT] using h1
  exact_mod_cast hlt

/-- Below the `u32` saturation threshold the `as u32` cast of the scaled
titlebar height is exactly the floor of the product. -/
lemma titlebar_height_phys_eq (sf : ℚ) (h1 : 32 * sf < 2 ^ 31) :
    titlebar_height_phys sf = (⌊TITLEBAR_HEIGHT * sf⌋).toNat := by
  unfold titlebar_height_phys f64AsU32
  have hlt := floor_titlebar_lt sf h1
  apply min_eq_left
  simp only [TITLEBAR_HEIGHT] at hlt ⊢
  omega

/-- Below the threshold the physical titlebar height fits in `i32`. -/
lemma titlebar_height_phys_lt (sf : ℚ) (h1 : 32 * sf < 2 ^ 31) :
    titlebar_height_phys sf < 2 ^ 31 := by
  rw [titlebar_height_phys_eq sf h1]
  have hlt := floor_titlebar_lt sf h1
  omega

/-- Below the threshold the `y` coordinate computed by
`create_gemini_webview` is the floor of the scaled titlebar height. -/
lemma computeGeminiBounds_y_eq (size : PhysicalSize) (sf : ℚ)
    (h0 : 0 ≤ sf) (h1 : 32 * sf < 2 ^ 31) :
    (computeGeminiBounds size sf).y = ⌊TITLEBAR_HEIGHT * sf⌋ := by
  have hlt : (⌊TITLEBAR_HEIGHT * sf⌋).toNat < 2 ^ 31 := by
    have := floor_titlebar_lt sf h1
    omega
  simp only [computeGeminiBounds, titlebar_height_phys_eq sf h1, u32AsI32,
    if_pos hlt]
  exact Int.toNat_of_nonneg (floor_titlebar_nonneg sf h0)

/-! Claim theorems. -/

/-- C1 (amended): for every parent size and every non-negative scale
factor whose scaled titlebar height `32 * scaleFactor` stays below
`2^31`, the bounds computed by `create_gemini_webview` have position
`x = 0` and `y = floor(titlebarHeightLogical * scaleFactor)`: the code
converts the logical titlebar height to physical pixels with a
truncating `as u32` cast, not by rounding to the nearest integer. -/
theorem gemini_bounds_position (size : PhysicalSize) (sf : ℚ)
    (h0 : 0 ≤ sf) (h1 : 32 * sf < 2 ^ 31) :
    (computeGeminiBounds size sf).x = 0 ∧
    (computeGeminiBounds size sf).y = ⌊TITLEBAR_HEIGHT * sf⌋ := by
  refine ⟨rfl, computeGeminiBounds_y_eq size sf h0 h1⟩

/-- Witness for C1 at parent size `800 × 600` and scale factor `1`:
the position is `(0, 32)`. -/
theorem gemini_bounds_position_witness :
    (computeGeminiBounds ⟨800, 600⟩ 1).x = 0 ∧
    (computeGeminiBounds ⟨800, 600⟩ 1).y = ⌊TITLEBAR_HEIGHT * 1⌋ :=
  gemini_bounds_position ⟨800, 600⟩ 1 (by norm_num) (by norm_num)

/-- Counterexample to C1 as stated: at scale factor `81/64` (exactly
representable in `f64`, with an exact product `32 * 81/64 = 40.5`) the
code places the view at `y = 40` (truncation) while rounding to the
nearest integer gives `41`. -/
theorem gemini_bounds_position_round_cex :
    (computeGeminiBounds ⟨800, 600⟩ (81 / 64)).y ≠
      round (TITLEBAR_HEIGHT * (81 / 64 : ℚ)) := by
  have hy : (computeGeminiBounds ⟨800, 600⟩ (81 / 64)).y = 40 := by
    simp [computeGeminiBounds, titlebar_height_phys, f64AsU32, TITLEBAR_HEIGHT, u32AsI32]
    norm_num [Int.floor_eq_iff, Int.toNat_ofNat]
  have hr : round (TITLEBAR_HEIGHT * (81 / 64 : ℚ)) = 41 := by
    norm_num [TITLEBAR_HEIGHT, round_eq, Int.floor_eq_iff]
  rw [hy, hr]
  decide

/-- C2: for every parent size and scale factor, the computed bounds have
width equal to the parent's physical width unchanged, and height equal
to `parentHeight - titlebarPhysical` when `parentHeight >
titlebarPhysical` and `0` otherwise, where `titlebarPhysical` is the
physical titlebar height the command computes. -/
theorem gemini_bounds_size (size : PhysicalSize) (sf : ℚ) :
    (computeGeminiBounds size sf).width = size.width ∧
    (size.height > titlebar_height_phys sf →
      (computeGeminiBounds size sf).height =
        size.height - titlebar_height_phys sf) ∧
    (size.height ≤ titlebar_height_phys sf →
      (computeGeminiBounds size sf).height = 0) := by
  refine ⟨rfl, fun h => ?_, fun h => ?_⟩
  · simp [computeGeminiBounds, if_pos h]
  · simp [computeGeminiBounds, if_neg (not_lt.mpr h)]

/-- Witness for C2 at parent size `800 × 600` and scale factor `1`:
width `800`, height `600 - 32 = 568`. -/
theorem gemini_bounds_size_witness :
    (computeGeminiBounds ⟨800, 600⟩ 1).width = 800 ∧
    (computeGeminiBounds ⟨800, 600⟩ 1).height = 568 := by
  have h := gemini_bounds_size ⟨800, 600⟩ 1
  refine ⟨h.1, ?_⟩
  have hh := h.2.1 (by rw [titlebar_height_phys_one]; norm_num)
  rw [hh, titlebar_height_phys_one]
  rfl

/-- C7 (amended): for every parent size, and every non-negative scale
factor with `32 * scaleFactor < 2^31`, all four components of the
computed bounds are non-negative.  Without that bound the claim fails:
the `u32 → i32` cast of the physical titlebar height wraps `y` to a
negative value for huge scale factors. -/
theorem gemini_bounds_nonneg (size : PhysicalSize) (sf : ℚ)
    (h0 : 0 ≤ sf) (h1 : 32 * sf < 2 ^ 31) :
    0 ≤ (computeGeminiBounds size sf).x ∧
    0 ≤ (computeGeminiBounds size sf).y ∧
    0 ≤ ((computeGeminiBounds size sf).width : ℤ) ∧
    0 ≤ ((computeGeminiBounds size sf).height : ℤ) := by
  refine ⟨le_refl 0, ?_, Int.natCast_nonneg _, Int.natCast_nonneg _⟩
  rw [computeGeminiBounds_y_eq size sf h0 h1]
  exact floor_titlebar_nonneg sf h0

/-- Witness for C7 at parent size `800 × 600` and scale factor `2`. -/
theorem gemini_bounds_nonneg_witness :
    0 ≤ (computeGeminiBounds ⟨800, 600⟩ 2).x ∧
    0 ≤ (computeGeminiBounds ⟨800, 600⟩ 2).y ∧
    0 ≤ ((computeGeminiBounds ⟨800, 600⟩ 2).width : ℤ) ∧
    0 ≤ ((computeGeminiBounds ⟨800, 600⟩ 2).height : ℤ) :=
  gemini_bounds_nonneg ⟨800, 600⟩ 2 (by norm_num) (by norm_num)

/-- Counterexample to C7 as stated: at the (admittedly extreme, but
positive) scale factor `2^26` the physical titlebar height is `2^31`,
and its `as i32` cast wraps, so the `y` position is negative. -/
theorem gemini_bounds_nonneg_cex :
    (computeGeminiBounds ⟨800, 600⟩ (2 ^ 26)).y < 0 := by
  have hy : (computeGeminiBounds ⟨800, 600⟩ (2 ^ 26)).y = -(2 ^ 31) := by
    simp [computeGeminiBounds, titlebar_height_phys, f64AsU32, TITLEBAR_HEIGHT, u32AsI32]
    norm_num [Int.floor_eq_iff, Int.toNat_ofNat]
  rw [hy]
  decide

/-- C3: with the main window present and the host calls succeeding,
invoking `create_gemini_webview` twice in sequence creates exactly one
view (the first call issues an attachment request, the second issues
none), and the second call returns `Ok` without modifying the state. -/
theorem create_gemini_webview_idempotent (app : AppState)
    (host1 host2 : WebviewHost) (sf : ℚ) (size : PhysicalSize)
    (hmain : app.mainWindowExists = true)
    (hno : app.geminiWebviewExists = false)
    (hsf : host1.scale_factor = .ok sf)
    (hsz : host1.inner_size = .ok size)
    (hadd : host1.add_child = .ok ()) :
    (create_gemini_webview app host1).1 = .ok () ∧
    (create_gemini_webview app host1).2.2 =
      some { label := "gemini-webview", url := GEMINI_URL,
             bounds := computeGeminiBounds size sf } ∧
    (create_gemini_webview (create_gemini_webview app host1).2.1 host2).1 =
      .ok () ∧
    (create_gemini_webview (create_gemini_webview app host1).2.1 host2).2.1 =
      (create_gemini_webview app host1).2.1 ∧
    (create_gemini_webview (create_gemini_webview app host1).2.1 host2).2.2 =
      none := by
  simp [create_gemini_webview, hmain, hno, hsf, hsz, hadd]

/-- Witness for C3: starting from a state with only the main window,
with scale factor `1` and parent size `800 × 600`, the first call
creates the view and the second is an error-free no-op. -/
theorem create_gemini_webview_idempotent_witness :
    (create_gemini_webview ⟨true, false, false⟩
      ⟨.ok 1, .ok ⟨800, 600⟩, .ok ()⟩).1 = .ok () ∧
    (create_gemini_webview ⟨true, false, false⟩
      ⟨.ok 1, .ok ⟨800, 600⟩, .ok ()⟩).2.2 =
      some { label := "gemini-webview", url := GEMINI_URL,
             bounds := computeGeminiBounds ⟨800, 600⟩ 1 } ∧
    (create_gemini_webview
      (create_gemini_webview ⟨true, false, false⟩
        ⟨.ok 1, .ok ⟨800, 600⟩, .ok ()⟩).2.1
      ⟨.ok 1, .ok ⟨800, 600⟩, .ok ()⟩).1 = .ok () ∧
    (create_gemini_webview
      (create_gemini_webview ⟨true, false, false⟩
        ⟨.ok 1, .ok ⟨800, 600⟩, .ok ()⟩).2.1
      ⟨.ok 1, .ok ⟨800, 600⟩, .ok ()⟩).2.1 =
      (create_gemini_webview ⟨true, false, false⟩
        ⟨.ok 1, .ok ⟨800, 600⟩, .ok ()⟩).2.1 ∧
    (create_gemini_webview
      (create_gemini_webview ⟨true, false, false⟩
        ⟨.ok 1, .ok ⟨800, 600⟩, .ok ()⟩).2.1
      ⟨.ok 1, .ok ⟨800, 600⟩, .ok ()⟩).2.2 = none :=
  create_gemini_webview_idempotent ⟨true, false, false⟩
    ⟨.ok 1, .ok ⟨800, 600⟩, .ok ()⟩ ⟨.ok 1, .ok ⟨800, 600⟩, .ok ()⟩
    1 ⟨800, 600⟩ rfl rfl rfl rfl rfl

/-- C4: `create_gemini_webview` returns a `WindowNotFound` error exactly
when the `"main"` window is absent, and in that case the state is
unchanged and no attachment request is issued. -/
theorem create_gemini_webview_window_not_found (app : AppState)
    (host : WebviewHost) :
    ((∃ m, (create_gemini_webview app host).1 = .error (.WindowNotFound m)) ↔
      app.mainWindowExists = false) ∧
    (app.mainWindowExists = false →
      (create_gemini_webview app host).2.1 = app ∧
      (create_gemini_webview app host).2.2 = none) := by
  constructor
  · constructor
    · intro ⟨m, hm⟩
      by_contra hmain
      simp only [Bool.not_eq_false] at hmain
      rcases hwv : app.geminiWebviewExists with _ | _ <;>
        rcases hsf : host.scale_factor with e | sf <;>
          rcases hsz : host.inner_size with e' | sz <;>
            rcases hadd : host.add_child with e'' | u <;>
              simp [create_gemini_webview, hmain, hwv, hsf, hsz, hadd] at hm
    · intro hmain
      exact ⟨"Main window not found", by simp [create_gemini_webview, hmain]⟩
  · intro hmain
    simp [create_gemini_webview, hmain]

/-- Witness for C4: with no main window present (even though the webview
exists), the command fails with `WindowNotFound` and changes nothing. -/
theorem create_gemini_webview_window_not_found_witness :
    (∃ m, (create_gemini_webview ⟨false, true, false⟩
      ⟨.ok 1, .ok ⟨800, 600⟩, .ok ()⟩).1 = .error (.WindowNotFound m)) ∧
    (create_gemini_webview ⟨false, true, false⟩
      ⟨.ok 1, .ok ⟨800, 600⟩, .ok ()⟩).2.1 = ⟨false, true, false⟩ ∧
    (create_gemini_webview ⟨false, true, false⟩
      ⟨.ok 1, .ok ⟨800, 600⟩, .ok ()⟩).2.2 = none := by
  have h := create_gemini_webview_window_not_found ⟨false, true, false⟩
    ⟨.ok 1, .ok ⟨800, 600⟩, .ok ()⟩
  exact ⟨h.1.mpr rfl, (h.2 rfl).1, (h.2 rfl).2⟩

/-- C10: the main-window existence check precedes the webview-existence
check: even when the `"gemini-webview"` webview already exists, an
absent main window makes the command fail with `WindowNotFound`, so the
idempotent `Ok` path is reachable only when the main window exists. -/
theorem create_gemini_webview_main_check_first (app : AppState)
    (host : WebviewHost) (hwv : app.geminiWebviewExists = true) :
    (app.mainWindowExists = false →
      (create_gemini_webview app host).1 =
        .error (.WindowNotFound "Main window not found")) ∧
    ((create_gemini_webview app host).1 = .ok () →
      app.mainWindowExists = true) := by
  constructor
  · intro hmain
    simp [create_gemini_webview, hmain]
  · intro hok
    by_contra hmain
    simp only [Bool.not_eq_true] at hmain
    simp [create_gemini_webview, hmain] at hok

/-- Witness for C10: main window absent, webview present: the command
returns `WindowNotFound`, not the idempotent `Ok`. -/
theorem create_gemini_webview_main_check_first_witness :
    (create_gemini_webview ⟨false, true, false⟩
      ⟨.ok 1, .ok ⟨800, 600⟩, .ok ()⟩).1 =
      .error (.WindowNotFound "Main window not found") :=
  (create_gemini_webview_main_check_first ⟨false, true, false⟩
    ⟨.ok 1, .ok ⟨800, 600⟩, .ok ()⟩ rfl).1 rfl

/-- C5: the resize handler never propagates an error: for every host
environment and size it returns `Ok`, it issues no bounds request when
the `"gemini-webview"` webview is absent, and its entire outcome is
independent of whether the `set_bounds` call fails (the failure is
discarded). -/
theorem on_main_window_resized_never_errors (host : ResizeHost)
    (size : PhysicalSize) :
    (on_main_window_resized host size).1 = .ok () ∧
    (host.geminiWebviewExists = false →
      (on_main_window_resized host size).2 = none) ∧
    (∀ sb, on_main_window_resized
      { host with set_bounds := sb } size =
        on_main_window_resized host size) := by
  refine ⟨?_, ?_, ?_⟩
  · rcases h : host.geminiWebviewExists <;> simp [on_main_window_resized, h]
  · intro h
    simp [on_main_window_resized, h]
  · intro sb
    rcases h : host.geminiWebviewExists <;> simp [on_main_window_resized, h]

/-- Witness for C5: with the webview present and a failing `set_bounds`
call, the handler still returns `Ok`; with the webview absent it issues
no request. -/
theorem on_main_window_resized_never_errors_witness :
    (on_main_window_resized ⟨true, .ok 1, .error "set_bounds failed"⟩
      ⟨800, 600⟩).1 = .ok () ∧
    (on_main_window_resized ⟨false, .ok 1, .ok ()⟩ ⟨800, 600⟩).2 = none :=
  ⟨(on_main_window_resized_never_errors
      ⟨true, .ok 1, .error "set_bounds failed"⟩ ⟨800, 600⟩).1,
   (on_main_window_resized_never_errors
      ⟨false, .ok 1, .ok ()⟩ ⟨800, 600⟩).2.1 rfl⟩

/-- C6: if the scale-factor query fails during resize handling, the
handler substitutes `1.0` and still issues a bounds request computed
with that fallback, returning `Ok`. -/
theorem on_main_window_resized_scale_fallback (host : ResizeHost)
    (size : PhysicalSize) (e : String)
    (hwv : host.geminiWebviewExists = true)
    (herr : host.scale_factor = .error e) :
    (on_main_window_resized host size).1 = .ok () ∧
    (on_main_window_resized host size).2 =
      some (calculate_webview_bounds size.width size.height 1
        TITLEBAR_HEIGHT) := by
  simp [on_main_window_resized, hwv, herr]

/-- Witness for C6 at size `800 × 600` with a failing scale query. -/
theorem on_main_window_resized_scale_fallback_witness :
    (on_main_window_resized ⟨true, .error "scale query failed", .ok ()⟩
      ⟨800, 600⟩).1 = .ok () ∧
    (on_main_window_resized ⟨true, .error "scale query failed", .ok ()⟩
      ⟨800, 600⟩).2 =
      some (calculate_webview_bounds 800 600 1 TITLEBAR_HEIGHT) :=
  on_main_window_resized_scale_fallback
    ⟨true, .error "scale query failed", .ok ()⟩ ⟨800, 600⟩
    "scale query failed" rfl rfl

/-- C8: when the `"options"` window already exists,
`create_options_window` creates no new window and leaves the state
unchanged; a failing un-minimize attempt is non-fatal (the call still
returns `Ok` whenever the focus request succeeds, whatever the
un-minimize outcome), while a failing focus request is returned to the
caller as a `TauriError`. -/
theorem create_options_window_existing (app : AppState)
    (host : OptionsHost) (hex : app.optionsWindowExists = true) :
    (create_options_window app host).2.2.1 = 0 ∧
    (create_options_window app host).2.1 = app ∧
    (host.focus_existing = .ok () →
      (create_options_window app host).1 = .ok ()) ∧
    (∀ e, host.focus_existing = .error e →
      (create_options_window app host).1 = .error (.TauriError e)) := by
  refine ⟨?_, ?_, ?_, ?_⟩
  · rcases hf : host.focus_existing with e | u <;>
      simp [create_options_window, hex, hf]
  · rcases hf : host.focus_existing with e | u <;>
      simp [create_options_window, hex, hf]
  · intro hf
    simp [create_options_window, hex, hf]
  · intro e hf
    simp [create_options_window, hex, hf]

/-- Witness for C8: options window present, un-minimize failing, focus
succeeding: zero windows created, state unchanged, result `Ok`. -/
theorem create_options_window_existing_witness :
    (create_options_window ⟨true, false, true⟩
      ⟨.error "still minimized", .ok (), .ok (), .ok ()⟩).2.2.1 = 0 ∧
    (create_options_window ⟨true, false, true⟩
      ⟨.error "still minimized", .ok (), .ok (), .ok ()⟩).2.1 =
      ⟨true, false, true⟩ ∧
    (create_options_window ⟨true, false, true⟩
      ⟨.error "still minimized", .ok (), .ok (), .ok ()⟩).1 = .ok () := by
  have h := create_options_window_existing ⟨true, false, true⟩
    ⟨.error "still minimized", .ok (), .ok (), .ok ()⟩ rfl
  exact ⟨h.1, h.2.1, h.2.2.1 rfl⟩

/-- C9: every command error serializes to a plain string holding the
error's display message, for each of the four variants of
`CommandError`. -/
theorem serializeCommandError_plain_string (e : CommandError) :
    serializeCommandError e = .str e.display ∧
    ∀ m, serializeCommandError (.WindowNotFound m) =
        .str ("Failed to acquire window: " ++ m) ∧
      serializeCommandError (.TauriError m) =
        .str ("Tauri error: " ++ m) ∧
      serializeCommandError (.SerializationError m) =
        .str ("Serialization error: " ++ m) ∧
      serializeCommandError (.Internal m) =
        .str ("Internal error: " ++ m) := by
  exact ⟨rfl, fun m => ⟨rfl, rfl, rfl, rfl⟩⟩
